import Mathlib

/-!
Shallow embedding of `mne/simulation/metrics.py`.

The module has two functions: `_check_stc`, which validates that two source
estimates have data matrices of the same shape and raises on incompatible
time arrays, and `source_estimate_quantification`, which dispatches on a
metric name and computes a similarity score.

Data matrices are embedded as lists of rows of rationals; the numpy shape of
such a matrix is its row count together with the length of every row.  Scores
(which involve square roots and division) live in `ℝ`; every `raise`
site of the Python code becomes a distinct `MetricError` constructor carrying
the message text, and the Python `None` returned when the function falls off
the end becomes `Except.ok none`.
-/

namespace Metrics

/-- A source estimate: a 2-D data matrix (rows of sources, columns of time
samples) and the 1-D array of time stamps. -/
structure SourceEstimate where
  data : List (List ℚ)
  times : List ℚ
  deriving DecidableEq

/-- One constructor per `raise ValueError` site of the Python module, carrying
the message text of that site. -/
inductive MetricError where
  | unknownMetric (msg : String)
  | missingSourceSpace (msg : String)
  | shapeMismatch (msg : String)
  | timeMismatch (msg : String)
  deriving DecidableEq

/-- The numpy shape of a list-of-rows matrix: the row count together with the
length of each row. -/
def shape (d : List (List ℚ)) : ℕ × List ℕ := (d.length, d.map List.length)

/-- `np.all(t1 != t2)`: the element-wise disequality holds at every position
(`np.all` of an empty comparison is `True`). -/
def allTimesDiffer (t1 t2 : List ℚ) : Bool :=
  (List.zipWith (fun a b => decide (a ≠ b)) t1 t2).all id

/-- `_check_stc`: raise on differing data shapes, then raise when
`np.all(stc1.times != stc2.times)` holds. -/
def check_stc (stc1 stc2 : SourceEstimate) : Except MetricError Unit :=
  if shape stc1.data ≠ shape stc2.data then
    Except.error (MetricError.shapeMismatch "Data in stcs must have the same size")
  else if allTimesDiffer stc1.times stc2.times then
    Except.error (MetricError.timeMismatch "Times of two stcs must match.")
  else Except.ok ()

/-- Element-wise matrix subtraction, `data1 - data2`. -/
def matSub (d1 d2 : List (List ℚ)) : List (List ℚ) :=
  List.zipWith (List.zipWith (fun a b => a - b)) d1 d2

/-- Element-wise matrix square, `m ** 2`. -/
def matSq (d : List (List ℚ)) : List (List ℚ) :=
  d.map (List.map (fun x => x ^ 2))

/-- Number of entries of the matrix. -/
def numel (d : List (List ℚ)) : ℕ := d.flatten.length

/-- `np.mean` over all entries: total sum divided by the entry count. -/
def matMean (d : List (List ℚ)) : ℚ := d.flatten.sum / (numel d : ℚ)

/-- `np.correlate` of two equal-length 1-D sequences (mode `valid`): the
cross-correlation at zero lag, i.e. the dot product. -/
def dotList (l1 l2 : List ℚ) : ℚ := (List.zipWith (fun a b => a * b) l1 l2).sum

/-- Sum of squared entries of a matrix (the squared Frobenius norm). -/
def normSq (d : List (List ℚ)) : ℚ := (d.flatten.map (fun x => x ^ 2)).sum

/-- `scipy.linalg.norm` of a 2-D array: the Frobenius norm `√(Σ x²)`. -/
noncomputable def frobNorm (d : List (List ℚ)) : ℝ := Real.sqrt ((normSq d : ℚ) : ℝ)

/-- The `known_metrics` list of `source_estimate_quantification`. -/
def known_metrics : List String :=
  ["rms", "cosine", "distance_err", "weighted_distance_err"]

/-- Message of the unknown-metric `raise` site. -/
def unknown_metric_msg : String :=
  "metric must be a str from the known metrics: \"rms\", \"cosine\", \"distance_err\", \"weighted_distance_err\" or \"...\""

/-- Message of the missing-source-space `raise` site. -/
def missing_src_msg : String :=
  "The source space src is needed when using \"distance_err\" or \"weighted_distance_err\""

/-- `source_estimate_quantification`: reject unknown metric names, then the
distance metrics without a source space, then run `_check_stc`; compute the
`rms` or `cosine` score; any other known metric falls off the end of the
Python function, returning `None`. -/
noncomputable def source_estimate_quantification
    (stc1 stc2 : SourceEstimate) (metric : String) (src : Option Unit) :
    Except MetricError (Option ℝ) :=
  if metric ∉ known_metrics then
    Except.error (MetricError.unknownMetric unknown_metric_msg)
  else if metric ∈ ["distance_err", "weighted_distance_err"] ∧ src = none then
    Except.error (MetricError.missingSourceSpace missing_src_msg)
  else
    match check_stc stc1 stc2 with
    | Except.error e => Except.error e
    | Except.ok _ =>
      if metric = "rms" then
        Except.ok (some (Real.sqrt ((matMean (matSq (matSub stc1.data stc2.data)) : ℚ) : ℝ)))
      else if metric = "cosine" then
        Except.ok (some (1 - ((dotList stc1.data.flatten stc2.data.flatten : ℚ) : ℝ) /
          (frobNorm stc1.data * frobNorm stc2.data)))
      else
        Except.ok none

/-- Spec-side formulation of the mean squared difference: sum of squared
element-wise differences of the flattened matrices, over the element count. -/
def sqDiffSum (l1 l2 : List ℚ) : ℚ :=
  (List.zipWith (fun a b => (a - b) ^ 2) l1 l2).sum

/-- Sum of squared entries of a 1-D sequence (`normSq` of its flattening). -/
def sumSq (l : List ℚ) : ℚ := (l.map (fun x => x ^ 2)).sum

/-- Scale the data matrix of a source estimate by a constant. -/
def scaleStc (k : ℚ) (stc : SourceEstimate) : SourceEstimate :=
  ⟨stc.data.map (List.map (fun x => k * x)), stc.times⟩

/-- `pat` is a leading block of `s` (character-wise). -/
def leadsList : List Char → List Char → Bool
  | [], _ => true
  | _ :: _, [] => false
  | a :: as, b :: bs => a = b && leadsList as bs

/-- `pat` occurs contiguously somewhere inside `s`. -/
def occursIn (pat : List Char) : List Char → Bool
  | [] => leadsList pat []
  | c :: rest => leadsList pat (c :: rest) || occursIn pat rest

/-! ### Concrete example estimates used by witnesses and counterexamples -/

/-- 2×2 example. -/
def exA : SourceEstimate := ⟨[[1, 2], [3, 4]], [0, 1]⟩

/-- 2×2 example whose time array differs from `exA` at index 1 only. -/
def exB : SourceEstimate := ⟨[[5, 6], [7, 8]], [0, 2]⟩

/-- 2×2 example fully compatible with `exA`. -/
def exB2 : SourceEstimate := ⟨[[5, 6], [7, 8]], [0, 1]⟩

/-- 2×2 example with all-zero data. -/
def exZero : SourceEstimate := ⟨[[0, 0], [0, 0]], [0, 1]⟩

/-- 2×3 example. -/
def exD : SourceEstimate := ⟨[[1, 2, 3], [4, 5, 6]], [0, 1, 2]⟩

/-- 3×2 example. -/
def exE : SourceEstimate := ⟨[[1, 2], [3, 4], [5, 6]], [0, 1]⟩

/-! ### Reduction lemmas for the evaluator -/

lemma check_stc_ok_iff (stc1 stc2 : SourceEstimate) :
    check_stc stc1 stc2 = Except.ok () ↔
      shape stc1.data = shape stc2.data ∧
        allTimesDiffer stc1.times stc2.times = false := by
  unfold check_stc
  split_ifs with h1 h2 <;> simp_all

lemma seq_unknown (stc1 stc2 : SourceEstimate) (src : Option Unit) (metric : String)
    (hm : metric ∉ known_metrics) :
    source_estimate_quantification stc1 stc2 metric src =
      Except.error (MetricError.unknownMetric unknown_metric_msg) := by
  unfold source_estimate_quantification
  rw [if_pos hm]

lemma mem_distance_mem_known {metric : String}
    (hm : metric ∈ ["distance_err", "weighted_distance_err"]) :
    metric ∈ known_metrics := by
  simp only [List.mem_cons, List.not_mem_nil, or_false] at hm
  rcases hm with rfl | rfl <;> decide

lemma seq_missing (stc1 stc2 : SourceEstimate) (metric : String)
    (hm : metric ∈ ["distance_err", "weighted_distance_err"]) :
    source_estimate_quantification stc1 stc2 metric none =
      Except.error (MetricError.missingSourceSpace missing_src_msg) := by
  unfold source_estimate_quantification
  rw [if_neg (not_not_intro (mem_distance_mem_known hm)), if_pos ⟨hm, rfl⟩]

lemma seq_check_error (stc1 stc2 : SourceEstimate) (src : Option Unit) (metric : String)
    {e : MetricError} (hk : metric ∈ known_metrics)
    (hsrc : ¬(metric ∈ ["distance_err", "weighted_distance_err"] ∧ src = none))
    (h : check_stc stc1 stc2 = Except.error e) :
    source_estimate_quantification stc1 stc2 metric src = Except.error e := by
  unfold source_estimate_quantification
  rw [if_neg (not_not_intro hk), if_neg hsrc, h]

lemma seq_rms (stc1 stc2 : SourceEstimate) (src : Option Unit)
    (h : check_stc stc1 stc2 = Except.ok ()) :
    source_estimate_quantification stc1 stc2 "rms" src =
      Except.ok (some (Real.sqrt ((matMean (matSq (matSub stc1.data stc2.data)) : ℚ) : ℝ))) := by
  unfold source_estimate_quantification
  rw [if_neg (not_not_intro (by decide : ("rms" : String) ∈ known_metrics)),
    if_neg (fun hc => absurd hc.1 (by decide)), h]
  rfl

lemma seq_cosine (stc1 stc2 : SourceEstimate) (src : Option Unit)
    (h : check_stc stc1 stc2 = Except.ok ()) :
    source_estimate_quantification stc1 stc2 "cosine" src =
      Except.ok (some (1 - ((dotList stc1.data.flatten stc2.data.flatten : ℚ) : ℝ) /
        (frobNorm stc1.data * frobNorm stc2.data))) := by
  unfold source_estimate_quantification
  rw [if_neg (not_not_intro (by decide : ("cosine" : String) ∈ known_metrics)),
    if_neg (fun hc => absurd hc.1 (by decide)), h]
  rfl

lemma seq_fall_through (stc1 stc2 : SourceEstimate) (u : Unit) (metric : String)
    (hm : metric ∈ ["distance_err", "weighted_distance_err"])
    (h : check_stc stc1 stc2 = Except.ok ()) :
    source_estimate_quantification stc1 stc2 metric (some u) = Except.ok none := by
  unfold source_estimate_quantification
  rw [if_neg (not_not_intro (mem_distance_mem_known hm)),
    if_neg (fun hc => Option.noConfusion hc.2), h]
  simp only [List.mem_cons, List.not_mem_nil, or_false] at hm
  rcases hm with rfl | rfl <;> rfl

/-! ### List and matrix arithmetic lemmas -/

lemma sumSq_nonneg (l : List ℚ) : 0 ≤ sumSq l := by
  induction l with
  | nil => simp [sumSq]
  | cons a t ih =>
    simp only [sumSq, List.map_cons, List.sum_cons]
    exact add_nonneg (sq_nonneg a) ih

lemma flatten_map (f : ℚ → ℚ) (d : List (List ℚ)) :
    (d.map (List.map f)).flatten = d.flatten.map f := by
  induction d with
  | nil => rfl
  | cons r t ih =>
    simp only [List.map_cons, List.flatten_cons, List.map_append, ih]

lemma flatten_zipWith (f : ℚ → ℚ → ℚ) :
    ∀ d1 d2 : List (List ℚ), d1.map List.length = d2.map List.length →
      (List.zipWith (List.zipWith f) d1 d2).flatten =
        List.zipWith f d1.flatten d2.flatten
  | [], [], _ => rfl
  | [], _ :: _, h => by simp at h
  | _ :: _, [], h => by simp at h
  | r1 :: t1, r2 :: t2, h => by
    simp only [List.map_cons, List.cons.injEq] at h
    simp only [List.zipWith_cons_cons, List.flatten_cons]
    rw [List.zipWith_append _ r1 t1.flatten r2 t2.flatten h.1,
      flatten_zipWith f t1 t2 h.2]

lemma length_flatten_eq {d1 d2 : List (List ℚ)}
    (h : d1.map List.length = d2.map List.length) :
    d1.flatten.length = d2.flatten.length := by
  rw [List.length_flatten, List.length_flatten, h]

lemma shape_snd {d1 d2 : List (List ℚ)} (h : shape d1 = shape d2) :
    d1.map List.length = d2.map List.length := congrArg Prod.snd h

lemma matMean_sq_sub (d1 d2 : List (List ℚ)) (hsh : shape d1 = shape d2) :
    matMean (matSq (matSub d1 d2)) =
      sqDiffSum d1.flatten d2.flatten / (numel d1 : ℚ) := by
  have hlen := shape_snd hsh
  have hfl : (matSq (matSub d1 d2)).flatten =
      List.zipWith (fun a b => (a - b) ^ 2) d1.flatten d2.flatten := by
    rw [matSq, flatten_map, matSub, flatten_zipWith _ _ _ hlen, List.map_zipWith]
  have hflen : d1.flatten.length = d2.flatten.length := length_flatten_eq hlen
  have hnum : numel (matSq (matSub d1 d2)) = numel d1 := by
    simp only [numel, hfl, List.length_zipWith, ← hflen, min_self]
  simp only [matMean, hfl, hnum]
  rfl

lemma sqDiffSum_self (l : List ℚ) : sqDiffSum l l = 0 := by
  induction l with
  | nil => rfl
  | cons a t ih =>
    simp only [sqDiffSum, List.zipWith_cons_cons, List.sum_cons] at ih ⊢
    rw [ih, sub_self]
    ring

lemma dotList_self (l : List ℚ) : dotList l l = sumSq l := by
  induction l with
  | nil => rfl
  | cons a t ih =>
    simp only [dotList, sumSq, List.zipWith_cons_cons, List.sum_cons,
      List.map_cons] at ih ⊢
    rw [ih, pow_two]

lemma dotList_sq_le : ∀ l1 l2 : List ℚ, dotList l1 l2 ^ 2 ≤ sumSq l1 * sumSq l2
  | [], l2 => by
    simp [dotList, sumSq]
  | a :: l1, [] => by
    simp [dotList, sumSq]
  | a :: l1, b :: l2 => by
    have ih := dotList_sq_le l1 l2
    have hA := sumSq_nonneg l1
    have hB := sumSq_nonneg l2
    simp only [dotList, sumSq, List.zipWith_cons_cons, List.sum_cons,
      List.map_cons] at ih hA hB ⊢
    rcases eq_or_lt_of_le hA with hA0 | hApos
    · have h2 : (List.zipWith (fun a b => a * b) l1 l2).sum ^ 2 ≤ 0 := by
        rw [← hA0] at ih
        simpa using ih
      have hD : (List.zipWith (fun a b => a * b) l1 l2).sum = 0 :=
        pow_eq_zero_iff two_ne_zero |>.mp (le_antisymm h2 (sq_nonneg _))
      rw [hD, ← hA0]
      nlinarith [mul_nonneg (sq_nonneg a) hB]
    · nlinarith [sq_nonneg (a * (List.zipWith (fun a b => a * b) l1 l2).sum -
        (List.map (fun x => x ^ 2) l1).sum * b),
        mul_nonneg (add_nonneg (sq_nonneg a) hA) (sub_nonneg.mpr ih), hApos]

lemma shape_map (f : ℚ → ℚ) (d : List (List ℚ)) :
    shape (d.map (List.map f)) = shape d := by
  simp [shape, List.map_map, Function.comp]

lemma sqDiffSum_map_const_mul (k : ℚ) : ∀ l1 l2 : List ℚ,
    sqDiffSum (l1.map (fun x => k * x)) (l2.map (fun x => k * x)) =
      k ^ 2 * sqDiffSum l1 l2
  | [], l2 => by simp [sqDiffSum]
  | a :: l1, [] => by simp [sqDiffSum]
  | a :: l1, b :: l2 => by
    have ih := sqDiffSum_map_const_mul k l1 l2
    simp only [sqDiffSum, List.map_cons, List.zipWith_cons_cons,
      List.sum_cons] at ih ⊢
    rw [ih]
    ring

lemma dotList_map_const_mul (k : ℚ) : ∀ l1 l2 : List ℚ,
    dotList (l1.map (fun x => k * x)) (l2.map (fun x => k * x)) =
      k ^ 2 * dotList l1 l2
  | [], l2 => by simp [dotList]
  | a :: l1, [] => by simp [dotList]
  | a :: l1, b :: l2 => by
    have ih := dotList_map_const_mul k l1 l2
    simp only [dotList, List.map_cons, List.zipWith_cons_cons,
      List.sum_cons] at ih ⊢
    rw [ih]
    ring

lemma sumSq_map_const_mul (k : ℚ) (l : List ℚ) :
    sumSq (l.map (fun x => k * x)) = k ^ 2 * sumSq l := by
  induction l with
  | nil => simp [sumSq]
  | cons a t ih =>
    simp only [sumSq, List.map_cons, List.sum_cons] at ih ⊢
    rw [ih]
    ring

lemma check_stc_ok_of (stc1 stc2 : SourceEstimate)
    (hsh : shape stc1.data = shape stc2.data)
    (ht : allTimesDiffer stc1.times stc2.times = false) :
    check_stc stc1 stc2 = Except.ok () :=
  (check_stc_ok_iff stc1 stc2).mpr ⟨hsh, ht⟩

/-! ### Claim theorems -/

/-- C1: the spec says the compatibility check fails with `TimeMismatch`
whenever at least one pair of corresponding time stamps differs.  The code
instead tests `np.all(t1 != t2)`, so with times `[0, 1]` versus `[0, 2]`
(differing at index 1) no error is raised and `evaluate_metric` silently
returns an `rms` value. -/
theorem c1_time_check_not_enforced :
    exA.times.get? 1 ≠ exB.times.get? 1 ∧
    check_stc exA exB = Except.ok () ∧
    source_estimate_quantification exA exB "rms" none = Except.ok (some 4) := by
  refine ⟨by decide, check_stc_ok_of exA exB (by decide) (by decide), ?_⟩
  have h16 : matMean (matSq (matSub exA.data exB.data)) = (16 : ℚ) := by
    norm_num [matMean, matSq, matSub, numel, exA, exB]
  rw [seq_rms exA exB none (check_stc_ok_of exA exB (by decide) (by decide)), h16]
  have hs : Real.sqrt (((16 : ℚ) : ℚ) : ℝ) = 4 := by
    rw [show (((16 : ℚ) : ℚ) : ℝ) = (4 : ℝ) ^ 2 by norm_num]
    exact Real.sqrt_sq (by norm_num)
  rw [hs]

/-- C2 counterexample: with metric `distance_err` and a non-null source space
the evaluator raises nothing at all — it returns the Python `None`
(`Except.ok none`), contradicting the claimed explicit `NotImplemented`
failure. -/
theorem c2_counterexample :
    source_estimate_quantification exA exB2 "distance_err" (some ()) = Except.ok none ∧
    ∀ e : MetricError,
      source_estimate_quantification exA exB2 "distance_err" (some ()) ≠ Except.error e := by
  have h := seq_fall_through exA exB2 () "distance_err" (by decide)
    (check_stc_ok_of exA exB2 (by decide) (by decide))
  exact ⟨h, fun e hc => by rw [h] at hc; exact Except.noConfusion hc⟩

/-- C2 (amended): requesting `distance_err` or `weighted_distance_err` with a
non-null source space never yields an ordinary numeric score; but no error is
raised for it either: once the compatibility check passes, the function falls
off the end and returns `None`. -/
theorem c2_distance_metrics_fall_through (stc1 stc2 : SourceEstimate) (u : Unit)
    {metric : String}
    (hm : metric = "distance_err" ∨ metric = "weighted_distance_err") :
    (∀ v : ℝ,
      source_estimate_quantification stc1 stc2 metric (some u) ≠ Except.ok (some v)) ∧
    (shape stc1.data = shape stc2.data →
      allTimesDiffer stc1.times stc2.times = false →
      source_estimate_quantification stc1 stc2 metric (some u) = Except.ok none) := by
  have hm2 : metric ∈ ["distance_err", "weighted_distance_err"] := by
    rcases hm with rfl | rfl <;> decide
  constructor
  · intro v hv
    cases hc : check_stc stc1 stc2 with
    | error e =>
      rw [seq_check_error stc1 stc2 (some u) metric (mem_distance_mem_known hm2)
        (fun hcon => Option.noConfusion hcon.2) hc] at hv
      exact Except.noConfusion hv
    | ok w =>
      rw [seq_fall_through stc1 stc2 u metric hm2 hc] at hv
      simp at hv
  · intro hsh ht
    exact seq_fall_through stc1 stc2 u metric hm2 ((check_stc_ok_iff stc1 stc2).mpr ⟨hsh, ht⟩)

/-- C2 witness: the amended statement at `exA`, `exB2`, metric
`distance_err`. -/
theorem c2_distance_metrics_fall_through_witness :
    ("distance_err" = "distance_err" ∨ "distance_err" = "weighted_distance_err") ∧
    ((∀ v : ℝ,
      source_estimate_quantification exA exB2 "distance_err" (some ()) ≠
        Except.ok (some v)) ∧
    (shape exA.data = shape exB2.data →
      allTimesDiffer exA.times exB2.times = false →
      source_estimate_quantification exA exB2 "distance_err" (some ()) =
        Except.ok none)) :=
  ⟨Or.inl rfl, c2_distance_metrics_fall_through exA exB2 () (Or.inl rfl)⟩

/-- C7: an unknown metric identifier is rejected with the `UnknownMetric`
error for every input (no shape, time or source-space validation happens
first), and the error message lists every accepted metric name. -/
theorem c7_unknown_metric (stc1 stc2 : SourceEstimate) (src : Option Unit)
    {metric : String} (hm : metric ∉ known_metrics) :
    source_estimate_quantification stc1 stc2 metric src =
      Except.error (MetricError.unknownMetric unknown_metric_msg) ∧
    known_metrics.all (fun nm => occursIn nm.toList unknown_metric_msg.toList) = true :=
  ⟨seq_unknown stc1 stc2 src metric hm, by decide⟩

/-- C7 witness: metric `"bogus"` on shape-mismatched inputs is still rejected
as unknown. -/
theorem c7_unknown_metric_witness :
    ("bogus" ∉ known_metrics) ∧
    (source_estimate_quantification exD exE "bogus" none =
      Except.error (MetricError.unknownMetric unknown_metric_msg) ∧
    known_metrics.all (fun nm => occursIn nm.toList unknown_metric_msg.toList) = true) :=
  ⟨by decide, c7_unknown_metric exD exE none (by decide)⟩

/-- C8: a distance metric with `src = None` is rejected with
`MissingSourceSpace` for every pair of estimates, whatever their shapes or
times. -/
theorem c8_missing_source_space (stc1 stc2 : SourceEstimate) {metric : String}
    (hm : metric = "distance_err" ∨ metric = "weighted_distance_err") :
    source_estimate_quantification stc1 stc2 metric none =
      Except.error (MetricError.missingSourceSpace missing_src_msg) :=
  seq_missing stc1 stc2 metric (by rcases hm with rfl | rfl <;> decide)

/-- C8 witness: `distance_err` with null source space on shape-mismatched
inputs. -/
theorem c8_missing_source_space_witness :
    ("distance_err" = "distance_err" ∨ "distance_err" = "weighted_distance_err") ∧
    source_estimate_quantification exD exE "distance_err" none =
      Except.error (MetricError.missingSourceSpace missing_src_msg) :=
  ⟨Or.inl rfl, c8_missing_source_space exD exE (Or.inl rfl)⟩

/-- C9 counterexample: with the known metric `distance_err` and a null source
space, shape-mismatched inputs (shapes (2,3) and (3,2)) fail with
`MissingSourceSpace`, not `ShapeMismatch`: the missing-source-space check runs
first. -/
theorem c9_counterexample :
    shape exD.data ≠ shape exE.data ∧
    "distance_err" ∈ known_metrics ∧
    source_estimate_quantification exD exE "distance_err" none =
      Except.error (MetricError.missingSourceSpace missing_src_msg) ∧
    ∀ msg : String,
      source_estimate_quantification exD exE "distance_err" none ≠
        Except.error (MetricError.shapeMismatch msg) := by
  refine ⟨by decide, by decide, seq_missing exD exE "distance_err" (by decide), ?_⟩
  intro msg hc
  rw [seq_missing exD exE "distance_err" (by decide)] at hc
  simp at hc

/-- C9 (amended): for a known metric — and, for the two distance metrics, a
non-null source space, since that check precedes — shape-mismatched data
matrices always fail with `ShapeMismatch`; no score is ever computed. -/
theorem c9_shape_mismatch (stc1 stc2 : SourceEstimate) (src : Option Unit)
    {metric : String} (hk : metric ∈ known_metrics)
    (hsrc : metric ∈ ["distance_err", "weighted_distance_err"] → src ≠ none)
    (hsh : shape stc1.data ≠ shape stc2.data) :
    source_estimate_quantification stc1 stc2 metric src =
      Except.error (MetricError.shapeMismatch "Data in stcs must have the same size") := by
  refine seq_check_error stc1 stc2 src metric hk (fun hc => hsrc hc.1 hc.2) ?_
  unfold check_stc
  rw [if_pos hsh]

/-- C9 witness: `rms` on shapes (2,3) versus (3,2). -/
theorem c9_shape_mismatch_witness :
    ("rms" ∈ known_metrics ∧ shape exD.data ≠ shape exE.data) ∧
    source_estimate_quantification exD exE "rms" none =
      Except.error (MetricError.shapeMismatch "Data in stcs must have the same size") :=
  ⟨⟨by decide, by decide⟩,
    c9_shape_mismatch exD exE none (by decide) (fun hc => absurd hc (by decide))
      (by decide)⟩

/-- C10: for the all-zero (hence compatible-with-itself) estimate, the
`cosine` divisor `norm(data1) * norm(data2)` is zero, yet no validation error
is raised: the evaluator still returns an ordinary value (here `1`, with the
embedding's zero-denominator division evaluating to `0`). -/
theorem c10_cosine_division_by_zero_reachable :
    frobNorm exZero.data * frobNorm exZero.data = 0 ∧
    source_estimate_quantification exZero exZero "cosine" none = Except.ok (some 1) := by
  have hn : normSq exZero.data = 0 := by norm_num [normSq, exZero]
  have hf : frobNorm exZero.data = 0 := by
    rw [frobNorm, hn]
    simp
  refine ⟨by rw [hf]; ring, ?_⟩
  rw [seq_cosine exZero exZero none (check_stc_ok_of exZero exZero (by decide) (by decide)), hf]
  have hd : dotList exZero.data.flatten exZero.data.flatten = 0 := by
    norm_num [dotList, exZero]
  rw [hd]
  norm_num

/-- C3: for compatible estimates, `rms` returns the square root of the mean of
the squared element-wise differences, and the result is always
nonnegative. -/
theorem c3_rms_formula (stc1 stc2 : SourceEstimate) (src : Option Unit)
    (hsh : shape stc1.data = shape stc2.data)
    (ht : allTimesDiffer stc1.times stc2.times = false) :
    source_estimate_quantification stc1 stc2 "rms" src =
      Except.ok (some (Real.sqrt
        ((sqDiffSum stc1.data.flatten stc2.data.flatten /
          (numel stc1.data : ℚ) : ℚ) : ℝ))) ∧
    ∀ v : ℝ,
      source_estimate_quantification stc1 stc2 "rms" src = Except.ok (some v) →
        0 ≤ v := by
  have heval := seq_rms stc1 stc2 src (check_stc_ok_of stc1 stc2 hsh ht)
  rw [matMean_sq_sub stc1.data stc2.data hsh] at heval
  refine ⟨heval, fun v hv => ?_⟩
  rw [heval] at hv
  simp only [Except.ok.injEq, Option.some.injEq] at hv
  rw [← hv]
  exact Real.sqrt_nonneg _

/-- C3 witness: the formula and nonnegativity at `exA`, `exB2`. -/
theorem c3_rms_formula_witness :
    (shape exA.data = shape exB2.data ∧
      allTimesDiffer exA.times exB2.times = false) ∧
    (source_estimate_quantification exA exB2 "rms" none =
      Except.ok (some (Real.sqrt
        ((sqDiffSum exA.data.flatten exB2.data.flatten /
          (numel exA.data : ℚ) : ℚ) : ℝ))) ∧
    ∀ v : ℝ,
      source_estimate_quantification exA exB2 "rms" none = Except.ok (some v) →
        0 ≤ v) :=
  ⟨⟨by decide, by decide⟩, c3_rms_formula exA exB2 none (by decide) (by decide)⟩

/-- C4: for compatible estimates, `cosine` returns one minus the dot product
of the flattened matrices over the product of their Frobenius norms; when
both matrices are nonzero the result lies in `[0, 2]`. -/
theorem c4_cosine_formula (stc1 stc2 : SourceEstimate) (src : Option Unit)
    (hsh : shape stc1.data = shape stc2.data)
    (ht : allTimesDiffer stc1.times stc2.times = false) :
    source_estimate_quantification stc1 stc2 "cosine" src =
      Except.ok (some (1 -
        ((dotList stc1.data.flatten stc2.data.flatten : ℚ) : ℝ) /
        (Real.sqrt ((normSq stc1.data : ℚ) : ℝ) *
          Real.sqrt ((normSq stc2.data : ℚ) : ℝ)))) ∧
    (0 < normSq stc1.data → 0 < normSq stc2.data →
      ∀ v : ℝ,
        source_estimate_quantification stc1 stc2 "cosine" src =
          Except.ok (some v) → 0 ≤ v ∧ v ≤ 2) := by
  have heval := seq_cosine stc1 stc2 src (check_stc_ok_of stc1 stc2 hsh ht)
  refine ⟨heval, fun h1 h2 v hv => ?_⟩
  rw [heval] at hv
  simp only [Except.ok.injEq, Option.some.injEq, frobNorm] at hv
  have hcs : ((dotList stc1.data.flatten stc2.data.flatten : ℚ) : ℝ) ^ 2 ≤
      ((normSq stc1.data : ℚ) : ℝ) * ((normSq stc2.data : ℚ) : ℝ) := by
    have h : dotList stc1.data.flatten stc2.data.flatten ^ 2 ≤
        normSq stc1.data * normSq stc2.data :=
      dotList_sq_le stc1.data.flatten stc2.data.flatten
    exact_mod_cast h
  have hn1 : (0 : ℝ) < Real.sqrt ((normSq stc1.data : ℚ) : ℝ) :=
    Real.sqrt_pos.mpr (by exact_mod_cast h1)
  have hn2 : (0 : ℝ) < Real.sqrt ((normSq stc2.data : ℚ) : ℝ) :=
    Real.sqrt_pos.mpr (by exact_mod_cast h2)
  have hnn1 : (0 : ℝ) ≤ ((normSq stc1.data : ℚ) : ℝ) := by
    have := sumSq_nonneg stc1.data.flatten
    exact_mod_cast this
  have habs : |((dotList stc1.data.flatten stc2.data.flatten : ℚ) : ℝ)| ≤
      Real.sqrt ((normSq stc1.data : ℚ) : ℝ) *
        Real.sqrt ((normSq stc2.data : ℚ) : ℝ) := by
    rw [← Real.sqrt_mul hnn1, ← Real.sqrt_sq_eq_abs]
    exact Real.sqrt_le_sqrt hcs
  have hprod : (0 : ℝ) < Real.sqrt ((normSq stc1.data : ℚ) : ℝ) *
      Real.sqrt ((normSq stc2.data : ℚ) : ℝ) := mul_pos hn1 hn2
  have hratio : |((dotList stc1.data.flatten stc2.data.flatten : ℚ) : ℝ) /
      (Real.sqrt ((normSq stc1.data : ℚ) : ℝ) *
        Real.sqrt ((normSq stc2.data : ℚ) : ℝ))| ≤ 1 := by
    rw [abs_div, abs_of_pos hprod]
    exact (div_le_one hprod).mpr habs
  have hlo := (abs_le.mp hratio).1
  have hhi := (abs_le.mp hratio).2
  rw [← hv]
  constructor <;> [linarith; linarith]

/-- C4 witness: the formula and the `[0, 2]` bound at `exA`, `exB2`. -/
theorem c4_cosine_formula_witness :
    (shape exA.data = shape exB2.data ∧
      allTimesDiffer exA.times exB2.times = false) ∧
    (source_estimate_quantification exA exB2 "cosine" none =
      Except.ok (some (1 -
        ((dotList exA.data.flatten exB2.data.flatten : ℚ) : ℝ) /
        (Real.sqrt ((normSq exA.data : ℚ) : ℝ) *
          Real.sqrt ((normSq exB2.data : ℚ) : ℝ)))) ∧
    (0 < normSq exA.data → 0 < normSq exB2.data →
      ∀ v : ℝ,
        source_estimate_quantification exA exB2 "cosine" none =
          Except.ok (some v) → 0 ≤ v ∧ v ≤ 2)) :=
  ⟨⟨by decide, by decide⟩, c4_cosine_formula exA exB2 none (by decide) (by decide)⟩

/-- C5: comparing a self-compatible estimate with itself yields exactly `0`
for `rms`, and — when its data is nonzero — exactly `0` for `cosine`. -/
theorem c5_self_comparison_zero (stc : SourceEstimate) (src : Option Unit)
    (ht : allTimesDiffer stc.times stc.times = false) :
    source_estimate_quantification stc stc "rms" src = Except.ok (some 0) ∧
    (0 < normSq stc.data →
      source_estimate_quantification stc stc "cosine" src = Except.ok (some 0)) := by
  have hok : check_stc stc stc = Except.ok () := check_stc_ok_of stc stc rfl ht
  constructor
  · rw [seq_rms stc stc src hok, matMean_sq_sub stc.data stc.data rfl,
      sqDiffSum_self, zero_div]
    norm_num
  · intro hpos
    rw [seq_cosine stc stc src hok]
    have hd : dotList stc.data.flatten stc.data.flatten = normSq stc.data :=
      dotList_self stc.data.flatten
    have hnn : (0 : ℝ) ≤ ((normSq stc.data : ℚ) : ℝ) := by
      have := sumSq_nonneg stc.data.flatten
      exact_mod_cast this
    have hfr : frobNorm stc.data * frobNorm stc.data = ((normSq stc.data : ℚ) : ℝ) :=
      Real.mul_self_sqrt hnn
    have hne : ((normSq stc.data : ℚ) : ℝ) ≠ 0 := by
      have : (0 : ℝ) < ((normSq stc.data : ℚ) : ℝ) := by exact_mod_cast hpos
      exact this.ne'
    rw [hd, hfr, div_self hne]
    norm_num

/-- C5 witness: self-comparison of `exA` (whose data is nonzero). -/
theorem c5_self_comparison_zero_witness :
    (allTimesDiffer exA.times exA.times = false) ∧
    (source_estimate_quantification exA exA "rms" none = Except.ok (some 0) ∧
    (0 < normSq exA.data →
      source_estimate_quantification exA exA "cosine" none = Except.ok (some 0))) :=
  ⟨by decide, c5_self_comparison_zero exA none (by decide)⟩

/-- C6: scaling both data matrices by the same positive constant `k` leaves
the `cosine` score unchanged and multiplies the `rms` score by `k`. -/
theorem c6_scale_invariance (stc1 stc2 : SourceEstimate) (src : Option Unit)
    (k : ℚ) (hk : 0 < k)
    (hsh : shape stc1.data = shape stc2.data)
    (ht : allTimesDiffer stc1.times stc2.times = false) :
    source_estimate_quantification (scaleStc k stc1) (scaleStc k stc2) "cosine" src =
      source_estimate_quantification stc1 stc2 "cosine" src ∧
    ∀ r : ℝ,
      source_estimate_quantification stc1 stc2 "rms" src = Except.ok (some r) →
        source_estimate_quantification (scaleStc k stc1) (scaleStc k stc2) "rms" src =
          Except.ok (some ((k : ℝ) * r)) := by
  have hsh' : shape (scaleStc k stc1).data = shape (scaleStc k stc2).data := by
    simp only [scaleStc, shape_map, hsh]
  have hok : check_stc stc1 stc2 = Except.ok () := check_stc_ok_of stc1 stc2 hsh ht
  have hok' : check_stc (scaleStc k stc1) (scaleStc k stc2) = Except.ok () :=
    check_stc_ok_of (scaleStc k stc1) (scaleStc k stc2) hsh' ht
  have hflat1 : (scaleStc k stc1).data.flatten = stc1.data.flatten.map (fun x => k * x) :=
    flatten_map (fun x => k * x) stc1.data
  have hflat2 : (scaleStc k stc2).data.flatten = stc2.data.flatten.map (fun x => k * x) :=
    flatten_map (fun x => k * x) stc2.data
  have hkR : ((k : ℚ) : ℝ) ≠ 0 := by
    have : (0 : ℝ) < ((k : ℚ) : ℝ) := by exact_mod_cast hk
    exact this.ne'
  have hkRnn : (0 : ℝ) ≤ ((k : ℚ) : ℝ) := by
    have : (0 : ℝ) < ((k : ℚ) : ℝ) := by exact_mod_cast hk
    exact this.le
  have hnsq1 : normSq (scaleStc k stc1).data = k ^ 2 * normSq stc1.data := by
    show sumSq (scaleStc k stc1).data.flatten = k ^ 2 * sumSq stc1.data.flatten
    rw [hflat1, sumSq_map_const_mul]
  have hnsq2 : normSq (scaleStc k stc2).data = k ^ 2 * normSq stc2.data := by
    show sumSq (scaleStc k stc2).data.flatten = k ^ 2 * sumSq stc2.data.flatten
    rw [hflat2, sumSq_map_const_mul]
  have hfr1 : frobNorm (scaleStc k stc1).data = ((k : ℚ) : ℝ) * frobNorm stc1.data := by
    rw [frobNorm, hnsq1,
      show ((k ^ 2 * normSq stc1.data : ℚ) : ℝ) =
        ((k : ℚ) : ℝ) ^ 2 * ((normSq stc1.data : ℚ) : ℝ) by push_cast; ring,
      Real.sqrt_mul (sq_nonneg _), Real.sqrt_sq hkRnn]
    rfl
  have hfr2 : frobNorm (scaleStc k stc2).data = ((k : ℚ) : ℝ) * frobNorm stc2.data := by
    rw [frobNorm, hnsq2,
      show ((k ^ 2 * normSq stc2.data : ℚ) : ℝ) =
        ((k : ℚ) : ℝ) ^ 2 * ((normSq stc2.data : ℚ) : ℝ) by push_cast; ring,
      Real.sqrt_mul (sq_nonneg _), Real.sqrt_sq hkRnn]
    rfl
  constructor
  · rw [seq_cosine (scaleStc k stc1) (scaleStc k stc2) src hok',
      seq_cosine stc1 stc2 src hok]
    have hpay : (1 : ℝ) -
        ((dotList (scaleStc k stc1).data.flatten (scaleStc k stc2).data.flatten : ℚ) : ℝ) /
          (frobNorm (scaleStc k stc1).data * frobNorm (scaleStc k stc2).data) =
        1 - ((dotList stc1.data.flatten stc2.data.flatten : ℚ) : ℝ) /
          (frobNorm stc1.data * frobNorm stc2.data) := by
      rw [hflat1, hflat2, dotList_map_const_mul, hfr1, hfr2,
        show ((k : ℚ) : ℝ) * frobNorm stc1.data * (((k : ℚ) : ℝ) * frobNorm stc2.data) =
          ((k : ℚ) : ℝ) ^ 2 * (frobNorm stc1.data * frobNorm stc2.data) by ring,
        show ((k ^ 2 * dotList stc1.data.flatten stc2.data.flatten : ℚ) : ℝ) =
          ((k : ℚ) : ℝ) ^ 2 * ((dotList stc1.data.flatten stc2.data.flatten : ℚ) : ℝ) by
            push_cast; ring,
        mul_div_mul_left _ _ (pow_ne_zero 2 hkR)]
    rw [hpay]
  · intro r hr
    rw [seq_rms stc1 stc2 src hok, matMean_sq_sub stc1.data stc2.data hsh] at hr
    simp only [Except.ok.injEq, Option.some.injEq] at hr
    have hnumel : numel (scaleStc k stc1).data = numel stc1.data := by
      simp only [numel, hflat1, List.length_map]
    have hm : matMean (matSq (matSub (scaleStc k stc1).data (scaleStc k stc2).data)) =
        k ^ 2 * (sqDiffSum stc1.data.flatten stc2.data.flatten / (numel stc1.data : ℚ)) := by
      rw [matMean_sq_sub (scaleStc k stc1).data (scaleStc k stc2).data hsh',
        hflat1, hflat2, sqDiffSum_map_const_mul, hnumel, mul_div_assoc]
    rw [seq_rms (scaleStc k stc1) (scaleStc k stc2) src hok', hm,
      show ((k ^ 2 * (sqDiffSum stc1.data.flatten stc2.data.flatten /
          (numel stc1.data : ℚ)) : ℚ) : ℝ) =
        ((k : ℚ) : ℝ) ^ 2 * ((sqDiffSum stc1.data.flatten stc2.data.flatten /
          (numel stc1.data : ℚ) : ℚ) : ℝ) by push_cast; ring,
      Real.sqrt_mul (sq_nonneg _), Real.sqrt_sq hkRnn, hr]

/-- C6 witness: scaling `exA`, `exB2` by `k = 2`. -/
theorem c6_scale_invariance_witness :
    ((0 : ℚ) < 2 ∧ shape exA.data = shape exB2.data ∧
      allTimesDiffer exA.times exB2.times = false) ∧
    (source_estimate_quantification (scaleStc 2 exA) (scaleStc 2 exB2) "cosine" none =
      source_estimate_quantification exA exB2 "cosine" none ∧
    ∀ r : ℝ,
      source_estimate_quantification exA exB2 "rms" none = Except.ok (some r) →
        source_estimate_quantification (scaleStc 2 exA) (scaleStc 2 exB2) "rms" none =
          Except.ok (some (((2 : ℚ) : ℝ) * r))) :=
  ⟨⟨by norm_num, by decide, by decide⟩,
    c6_scale_invariance exA exB2 none 2 (by norm_num) (by decide) (by decide)⟩

end Metrics
